import Mathlib

/-!
Shallow embedding of the `darki73/traefik-real-ip` Traefik middleware.

The repository has two revisions of the plugin:

* the "direct" revision: `src/real_ip.go` (struct `TraefikRealIP` holding one
  field per provider) together with `src/pkg/providers/generic.go`;
* the "interface" revision: `src/unnamed/part_001` (interface-based
  `TraefikRealIP` with a provider registry, plus the Qrator provider) and
  `src/unnamed/part_002` (the Cloudflare provider).

Both are embedded below.  Go's `net.ParseIP` / `net.ParseCIDR` are modelled
for IPv4 dotted-quad addresses (the only shape the repository's tests and the
spec exercise); IPv6 textual forms are outside the model and parse to `none`.
Go's `strings.TrimSpace` / `strings.Split` are modelled by character-list
functions `trimChars` / `splitChars`.  Go map iteration order is unspecified;
the model fixes iteration over a provider's extracted-values map to the
association-list order produced by the embedding, and iteration over the
provider registry to the declaration order `generic, cloudflare, qrator`.
HTTP header keys are kept in canonical MIME form, mirroring `http.Header`'s
canonicalisation of both `Get` and `Set`.
-/

namespace TraefikRealIPModel

/-! ### Character-level string helpers (Go `strings` package model) -/

/-- Model of Go `strings.TrimSpace` restricted to ASCII whitespace:
drop whitespace from the front and from the back of a character list. -/
def trimChars (l : List Char) : List Char :=
  ((l.dropWhile Char.isWhitespace).reverse.dropWhile Char.isWhitespace).reverse

/-- `strings.TrimSpace` on strings. -/
def trimSpace (s : String) : String :=
  ⟨trimChars s.data⟩

/-- Model of Go `strings.Split` with a one-character separator.
`splitChars c [] = [[]]`, matching `strings.Split("", sep) = [""]`. -/
def splitChars (c : Char) : List Char → List (List Char)
  | [] => [[]]
  | x :: xs =>
    if x = c then [] :: splitChars c xs
    else
      match splitChars c xs with
      | t :: ts => (x :: t) :: ts
      | [] => [[x]]

/-! ### IPv4 parsing (model of `net.ParseIP`'s dotted-quad path) -/

/-- Take the leading run of decimal digits. -/
def takeDigits : List Char → List Char × List Char
  | [] => ([], [])
  | c :: cs =>
    if c.isDigit then
      let p := takeDigits cs
      (c :: p.1, p.2)
    else ([], c :: cs)

/-- Decimal value of a digit list. -/
def digitsToNat (l : List Char) : Nat :=
  l.foldl (fun a c => a * 10 + (c.toNat - 48)) 0

/-- Parse one dotted-quad field: a non-empty digit run, no leading zero
(except the single digit `0`), value at most 255.  Returns the value and the
unconsumed rest.  Mirrors the field loop of Go's IPv4 parser. -/
def parseField (cs : List Char) : Option (Nat × List Char) :=
  let p := takeDigits cs
  if p.1 = [] then none
  else if 1 < p.1.length ∧ p.1.head? = some '0' then none
  else if digitsToNat p.1 ≤ 255 then some (digitsToNat p.1, p.2) else none

/-- Expect a literal `.` separator. -/
def expectDot : List Char → Option (List Char)
  | c :: cs => if c = '.' then some cs else none
  | [] => none

/-- Model of `net.ParseIP` on an IPv4 dotted quad, as a 32-bit value.
Anything that is not four valid fields separated by dots (including every
IPv6 textual form, which the repository never exercises) parses to `none`. -/
def parseV4 (cs : List Char) : Option Nat :=
  match parseField cs with
  | none => none
  | some (a, cs) =>
    match expectDot cs with
    | none => none
    | some cs =>
      match parseField cs with
      | none => none
      | some (b, cs) =>
        match expectDot cs with
        | none => none
        | some cs =>
          match parseField cs with
          | none => none
          | some (c, cs) =>
            match expectDot cs with
            | none => none
            | some cs =>
              match parseField cs with
              | none => none
              | some (d, cs) =>
                if cs = [] then some (((a * 256 + b) * 256 + c) * 256 + d)
                else none

/-- `net.ParseIP` on strings (IPv4 model). -/
def parseIP (s : String) : Option Nat :=
  parseV4 s.data

/-! ### CIDR networks (model of `net.IPNet` and `net.ParseCIDR`) -/

/-- A parsed CIDR network: the masked base address and the prefix length.
`net.ParseCIDR` stores the base already masked (`ip.Mask(m)`). -/
structure IPNet where
  base : Nat
  maskBits : Nat
deriving DecidableEq, Repr

/-- The 32-bit mask with `bits` leading ones. -/
def maskOf (bits : Nat) : Nat :=
  2 ^ 32 - 2 ^ (32 - bits)

/-- Model of `(*net.IPNet).Contains` for IPv4. -/
def ipNetContains (n : IPNet) (ip : Nat) : Bool :=
  ip &&& maskOf n.maskBits = n.base

/-- Parse a decimal prefix length (model of Go's `dtoi` as used by
`net.ParseCIDR`): a non-empty run of digits consuming the whole input. -/
def parseDecimal (cs : List Char) : Option Nat :=
  let p := takeDigits cs
  if p.1 = [] then none
  else if p.2 = [] then some (digitsToNat p.1) else none

/-- Model of `net.ParseCIDR` for IPv4: `addr/len` with `len ≤ 32`;
the stored base address is masked. -/
def parseCIDR (s : String) : Option IPNet :=
  match splitChars '/' s.data with
  | [a, m] =>
    match parseV4 a, parseDecimal m with
    | some ip, some bits =>
      if bits ≤ 32 then some ⟨ip &&& maskOf bits, bits⟩ else none
    | _, _ => none
  | _ => none

/-! ### The exclusion filter

`isExcludedIP` appears verbatim in `src/pkg/providers/generic.go` (lines
97-117) and again in the Cloudflare and Qrator providers; all copies are
identical, so a single definition embeds them. -/

/-- Model of `isExcludedIP`: unparseable input is excluded; otherwise the
address is excluded when it lies in some excluded network or equals some
excluded address. -/
def isExcludedIP (nets : List IPNet) (addrs : List Nat) (address : String) : Bool :=
  match parseIP address with
  | none => true
  | some ip => nets.any (fun n => ipNetContains n ip) || addrs.any (fun a => ip = a)

/-! ### Headers and string maps

Go `http.Header` lookup and mutation are modelled on association lists with
canonical keys; Go `map[string]string` (the providers' `values` field) is
modelled the same way, with `mapSet` overwriting any previous binding. -/

/-- Request headers / string maps: association lists. -/
abbrev StrMap := List (String × String)

/-- `http.Header.Get`: first binding, or `""` when absent. -/
def headerGet (h : StrMap) (k : String) : String :=
  match h.find? (fun kv => kv.1 = k) with
  | some kv => kv.2
  | none => ""

/-- `http.Header.Set`: replace any binding of `k` by `v`. -/
def headerSet (h : StrMap) (k v : String) : StrMap :=
  (k, v) :: h.filter (fun kv => kv.1 ≠ k)

/-- Optional lookup in a `map[string]string` (Go's `value, ok := m[k]`). -/
def mapGet? (m : StrMap) (k : String) : Option String :=
  match m.find? (fun kv => kv.1 = k) with
  | some kv => some kv.2
  | none => none

/-- Go map assignment `m[k] = v`. -/
def mapSet (m : StrMap) (k v : String) : StrMap :=
  (k, v) :: m.filter (fun kv => kv.1 ≠ k)

/-- Go `delete(m, k)`. -/
def mapDelete (m : StrMap) (k : String) : StrMap :=
  m.filter (fun kv => kv.1 ≠ k)

/-! ### Providers

The three Go provider structs (`GenericProvider`, `CloudflareProvider`,
`QratorProvider`) have identical fields; one structure embeds them, with the
`name` field distinguishing the variants as in the source. -/

/-- Header-name constants of `src/pkg/providers/generic.go`. -/
def xForwardedForHeader : String := "X-Forwarded-For"

/-- The `X-Real-Ip` header-name constant. -/
def xRealIPHeader : String := "X-Real-Ip"

/-- Header-name constants of the Cloudflare provider (`src/unnamed/part_002`). -/
def trueClientIPHeader : String := "True-Client-IP"

/-- The `CF-Connecting-IP` header-name constant. -/
def cfConnectingIPHeader : String := "CF-Connecting-IP"

/-- The `X-Qrator-IP-Source` header-name constant (`src/unnamed/part_001`). -/
def xQratorIPSourceHeader : String := "X-Qrator-IP-Source"

/-- Shared shape of the three provider structs. -/
structure Provider where
  name : String
  headers : List String
  values : StrMap
  excludedNetworks : List IPNet
  excludedAddresses : List Nat
deriving DecidableEq, Repr

/-- `InitializeGenericProvider` (`src/pkg/providers/generic.go` lines 24-35);
the interface revision's `(*GenericProvider).Initialize` builds the same
value.  Note the header list is declared `X-Forwarded-For` first. -/
def InitializeGenericProvider (nets : List IPNet) (addrs : List Nat) : Provider :=
  { name := "generic"
    headers := [xForwardedForHeader, xRealIPHeader]
    values := []
    excludedNetworks := nets
    excludedAddresses := addrs }

/-- `(*CloudflareProvider).Initialize` (`src/unnamed/part_002` lines 24-35). -/
def InitializeCloudflareProvider (nets : List IPNet) (addrs : List Nat) : Provider :=
  { name := "cloudflare"
    headers := [trueClientIPHeader, cfConnectingIPHeader]
    values := []
    excludedNetworks := nets
    excludedAddresses := addrs }

/-- `(*QratorProvider).Initialize` (`src/unnamed/part_001` lines 266-276). -/
def InitializeQratorProvider (nets : List IPNet) (addrs : List Nat) : Provider :=
  { name := "qrator"
    headers := [xQratorIPSourceHeader]
    values := []
    excludedNetworks := nets
    excludedAddresses := addrs }

/-- `fillValues` (identical in every provider, e.g.
`src/pkg/providers/generic.go` lines 78-84): for each provider header present
in the request with a non-empty value, record its trimmed value in the
provider's `values` map.  The map is mutable provider state in Go, so the
model threads it explicitly. -/
def fillValues (hs : List String) (m : StrMap) (req : StrMap) : StrMap :=
  hs.foldl
    (fun m h =>
      let v := headerGet req h
      if v ≠ "" then mapSet m h (trimSpace v) else m)
    m

/-- The `X-Forwarded-For` scan of the generic `GetRealIP`
(`src/pkg/providers/generic.go` lines 62-72): split the recorded value on
commas, trim every token, and return the first non-excluded token. -/
def genericForwardedScan (nets : List IPNet) (addrs : List Nat) (values : StrMap) : String :=
  match mapGet? values xForwardedForHeader with
  | some v =>
    let forwardChain := (splitChars ',' v.data).map (fun t => (⟨trimChars t⟩ : String))
    match forwardChain.find? (fun ip => ¬ isExcludedIP nets addrs ip) with
    | some ip => ip
    | none => ""
  | none => ""

/-- Result of the generic `GetRealIP` as a function of the filled values map
(`src/pkg/providers/generic.go` lines 56-74). -/
def genericResultOfValues (nets : List IPNet) (addrs : List Nat) (values : StrMap) : String :=
  match mapGet? values xRealIPHeader with
  | some v =>
    if ¬ isExcludedIP nets addrs v then v
    else genericForwardedScan nets addrs values
  | none => genericForwardedScan nets addrs values

/-- `(*GenericProvider).GetRealIP` (`src/pkg/providers/generic.go` lines
53-75): fill the values map from the request, then consult `X-Real-Ip` as a
single value and fall back to the `X-Forwarded-For` chain.  Returns the
updated provider (its `values` map mutated) and the result. -/
def genericGetRealIP (gp : Provider) (req : StrMap) : Provider × String :=
  let values := fillValues gp.headers gp.values req
  ({ gp with values := values },
   genericResultOfValues gp.excludedNetworks gp.excludedAddresses values)

/-- The value scan shared by the Cloudflare and Qrator `GetRealIP`
(`src/unnamed/part_002` lines 56-61, `src/unnamed/part_001` lines 297-301):
return the first non-excluded recorded value.  Go iterates the `values` map
in unspecified order; the model iterates the association list in order. -/
def firstNonExcludedValue (nets : List IPNet) (addrs : List Nat) (values : StrMap) : String :=
  match values.find? (fun kv => ¬ isExcludedIP nets addrs kv.2) with
  | some kv => kv.2
  | none => ""

/-- `(*CloudflareProvider).GetRealIP` / `(*QratorProvider).GetRealIP`
(`src/unnamed/part_002` lines 53-63, `src/unnamed/part_001` lines 294-304). -/
def simpleGetRealIP (p : Provider) (req : StrMap) : Provider × String :=
  let values := fillValues p.headers p.values req
  ({ p with values := values },
   firstNonExcludedValue p.excludedNetworks p.excludedAddresses values)

/-! ### Direct revision (`src/real_ip.go`) -/

/-- The plugin `Config` struct. -/
structure Config where
  excludedNetworks : List String
  excludedAddresses : List String
  providers : List String
  preferredProvider : String
deriving DecidableEq, Repr

/-- `CreateConfig`. -/
def CreateConfig : Config :=
  { excludedNetworks := []
    excludedAddresses := []
    providers := []
    preferredProvider := "" }

/-- The `TraefikRealIP` struct of `src/real_ip.go` (the `next` handler and
plugin name carry no resolution behaviour and are omitted; invoking `next`
is recorded explicitly by `ServeHTTP`'s result below). -/
structure TraefikRealIP where
  excludedNetworks : List IPNet
  excludedAddresses : List Nat
  genericProvider : Provider
  cloudflareProvider : Provider
  qratorProvider : Provider
  preferredProvider : String
deriving DecidableEq, Repr

/-- `availableProviders` as set in `New`. -/
def availableProviders : List String := ["generic", "cloudflare", "qrator"]

/-- `(*TraefikRealIP).IsValidProvider` (membership in `availableProviders`). -/
def IsValidProvider (provider : String) : Bool :=
  availableProviders.contains provider

/-- The `config.ExcludedNetworks` loop of `New` (lines 54-60): parse each
CIDR, failing on the first malformed entry. -/
def parseExcludedNetworks : List String → Except String (List IPNet)
  | [] => Except.ok []
  | v :: rest =>
    match parseCIDR v with
    | none => Except.error ("invalid CIDR address: " ++ v)
    | some n =>
      match parseExcludedNetworks rest with
      | Except.error e => Except.error e
      | Except.ok ns => Except.ok (n :: ns)

/-- `New` (`src/real_ip.go` lines 45-102): parse excluded networks (first
malformed entry aborts), silently drop unparseable excluded addresses,
validate a non-empty preferred provider, validate every configured provider
name.  The Go condition `config.Providers != nil || len(config.Providers) == 0`
is true for every slice, so both the Cloudflare and the Qrator provider are
always initialized. -/
def New (config : Config) : Except String TraefikRealIP :=
  match parseExcludedNetworks config.excludedNetworks with
  | Except.error e => Except.error e
  | Except.ok nets =>
    let addrs := config.excludedAddresses.filterMap parseIP
    if config.preferredProvider ≠ "" ∧ ¬ IsValidProvider config.preferredProvider then
      Except.error ("preferred provider " ++ config.preferredProvider ++ " is not valid")
    else if config.providers.any (fun p => ¬ IsValidProvider p) then
      Except.error "provider is not valid"
    else
      Except.ok
        { excludedNetworks := nets
          excludedAddresses := addrs
          genericProvider := InitializeGenericProvider nets addrs
          cloudflareProvider := InitializeCloudflareProvider nets addrs
          qratorProvider := InitializeQratorProvider nets addrs
          preferredProvider := config.preferredProvider }

/-- `HasPreferredProvider`. -/
def HasPreferredProvider (trip : TraefikRealIP) : Bool :=
  trip.preferredProvider ≠ ""

/-- The preferred-provider block of `ServeHTTP` (`src/real_ip.go` lines
106-115): `realIP` starts empty; when a preferred provider is set, the
Cloudflare branch and then the Qrator branch may overwrite it. -/
def resolvePreferred (trip : TraefikRealIP) (req : StrMap) : TraefikRealIP × String :=
  if HasPreferredProvider trip then
    let step :=
      if trip.preferredProvider = "cloudflare" then
        let r := simpleGetRealIP trip.cloudflareProvider req
        ({ trip with cloudflareProvider := r.1 }, r.2)
      else (trip, "")
    if step.1.preferredProvider = "qrator" then
      let r := simpleGetRealIP step.1.qratorProvider req
      ({ step.1 with qratorProvider := r.1 }, r.2)
    else step
  else (trip, "")

/-- The resolution part of `ServeHTTP` (`src/real_ip.go` lines 106-119):
preferred provider first, generic fallback when it produced nothing. -/
def resolveRealIP (trip : TraefikRealIP) (req : StrMap) : TraefikRealIP × String :=
  let step := resolvePreferred trip req
  if step.2 = "" then
    let r := genericGetRealIP step.1.genericProvider req
    ({ step.1 with genericProvider := r.1 }, r.2)
  else step

/-- Everything `ServeHTTP` leaves behind: the mutated handler state, the
request as forwarded downstream, the resolved address, and whether the next
handler ran. -/
structure ServeResult where
  trip : TraefikRealIP
  request : StrMap
  resolved : String
  nextInvoked : Bool
deriving DecidableEq, Repr

/-- `ServeHTTP` (`src/real_ip.go` lines 105-127): resolve, write
`X-Forwarded-For` and `X-Real-Ip` when a non-empty address was found, then
invoke the next handler on the (possibly mutated) request. -/
def ServeHTTP (trip : TraefikRealIP) (req : StrMap) : ServeResult :=
  let step := resolveRealIP trip req
  let req' :=
    if step.2 ≠ "" then
      headerSet (headerSet req xForwardedForHeader step.2) xRealIPHeader step.2
    else req
  { trip := step.1, request := req', resolved := step.2, nextInvoked := true }

/-! ### Direct revision with the Go map range order made explicit

The Cloudflare and Qrator `GetRealIP` loops iterate `range p.GetValues()`,
a Go map: the visiting order is unspecified and re-randomized on every
loop.  `ServeHTTP` above fixes one admissible order (the association list in
order); the `Ord`-suffixed variants below take the order each loop actually
visits as an explicit argument, so that statements about Go's
nondeterministic behaviour quantify over admissible visit sequences (the
permutations of the values map's entries). -/

/-- `simpleGetRealIP` with the `range` visiting sequence `visit` explicit.
`simpleGetRealIP p req = simpleGetRealIPOrd p req (the filled values list)`
by definition. -/
def simpleGetRealIPOrd (p : Provider) (req : StrMap) (visit : StrMap) :
    Provider × String :=
  ({ p with values := fillValues p.headers p.values req },
   firstNonExcludedValue p.excludedNetworks p.excludedAddresses visit)

/-- `resolvePreferred` with explicit visit sequences for the Cloudflare and
Qrator value loops. -/
def resolvePreferredOrd (trip : TraefikRealIP) (req : StrMap)
    (visitCf visitQr : StrMap) : TraefikRealIP × String :=
  if HasPreferredProvider trip then
    let step :=
      if trip.preferredProvider = "cloudflare" then
        let r := simpleGetRealIPOrd trip.cloudflareProvider req visitCf
        ({ trip with cloudflareProvider := r.1 }, r.2)
      else (trip, "")
    if step.1.preferredProvider = "qrator" then
      let r := simpleGetRealIPOrd step.1.qratorProvider req visitQr
      ({ step.1 with qratorProvider := r.1 }, r.2)
    else step
  else (trip, "")

/-- `resolveRealIP` with explicit visit sequences. -/
def resolveRealIPOrd (trip : TraefikRealIP) (req : StrMap)
    (visitCf visitQr : StrMap) : TraefikRealIP × String :=
  let step := resolvePreferredOrd trip req visitCf visitQr
  if step.2 = "" then
    let r := genericGetRealIP step.1.genericProvider req
    ({ step.1 with genericProvider := r.1 }, r.2)
  else step

/-- `ServeHTTP` with explicit visit sequences for the provider value loops
of this invocation. -/
def ServeHTTPOrd (trip : TraefikRealIP) (req : StrMap)
    (visitCf visitQr : StrMap) : ServeResult :=
  let step := resolveRealIPOrd trip req visitCf visitQr
  let req' :=
    if step.2 ≠ "" then
      headerSet (headerSet req xForwardedForHeader step.2) xRealIPHeader step.2
    else req
  { trip := step.1, request := req', resolved := step.2, nextInvoked := true }

/-! ### Interface revision (`src/unnamed/part_001`) -/

/-- The interface revision's `TraefikRealIP`: a registry of enabled providers
(`providers map[string]providers.ProviderInterface`) plus the persistent
`providersIPs` map.  The registry is modelled by the three provider states
plus the list of enabled names; Go map iteration order is unspecified, and
the model fixes it to the order of `enabledProviders`. -/
structure TripV2 where
  genericProvider : Provider
  cloudflareProvider : Provider
  qratorProvider : Provider
  enabledProviders : List String
  preferredProvider : String
  providersIPs : StrMap
deriving DecidableEq, Repr

/-- Dispatch `providerInstance.GetRealIP(request)` by provider name,
threading the provider's mutated state back into the handler. -/
def v2GetRealIP (t : TripV2) (name : String) (req : StrMap) : TripV2 × String :=
  if name = "generic" then
    let r := genericGetRealIP t.genericProvider req
    ({ t with genericProvider := r.1 }, r.2)
  else if name = "cloudflare" then
    let r := simpleGetRealIP t.cloudflareProvider req
    ({ t with cloudflareProvider := r.1 }, r.2)
  else if name = "qrator" then
    let r := simpleGetRealIP t.qratorProvider req
    ({ t with qratorProvider := r.1 }, r.2)
  else (t, "")

/-- The collection loop of the interface revision's `ServeHTTP`
(`src/unnamed/part_001` lines 96-101): every enabled provider resolves the
request and non-empty results are recorded in `providersIPs` by name. -/
def v2CollectIPs (t : TripV2) (req : StrMap) : TripV2 :=
  t.enabledProviders.foldl
    (fun t n =>
      let r := v2GetRealIP t n req
      if r.2 ≠ "" then
        { r.1 with providersIPs := mapSet r.1.providersIPs n r.2 }
      else r.1)
    t

/-- The selection logic of the interface revision's `ServeHTTP`
(`src/unnamed/part_001` lines 103-123): take the generic result (if any) and
remove it from the map; if other results remain, a recorded preferred
provider's result overwrites the generic one, and with no preference the
first enabled provider with a recorded result wins. -/
def selectRealIP (order : List String) (preferred : String) (ips : StrMap) : String :=
  let realIP :=
    match mapGet? ips "generic" with
    | some v => v
    | none => ""
  let rest := mapDelete ips "generic"
  if 0 < rest.length then
    if preferred ≠ "" then
      match mapGet? rest preferred with
      | some v => v
      | none => realIP
    else
      match order.find? (fun n => (mapGet? rest n).isSome) with
      | some n =>
        match mapGet? rest n with
        | some v => v
        | none => realIP
      | none => realIP
  else realIP

/-- Result of the interface revision's `ServeHTTP`. -/
structure ServeResult2 where
  trip : TripV2
  request : StrMap
  resolved : String
  nextInvoked : Bool
deriving DecidableEq, Repr

/-- The interface revision's `ServeHTTP` (`src/unnamed/part_001` lines
95-131): collect per-provider results into the persistent `providersIPs`
map, select the final address, write the two headers when one was found, and
invoke the next handler.  Only the `generic` entry is ever deleted from
`providersIPs`; the other entries persist across invocations. -/
def ServeHTTPv2 (t : TripV2) (req : StrMap) : ServeResult2 :=
  let t := v2CollectIPs t req
  let realIP := selectRealIP t.enabledProviders t.preferredProvider t.providersIPs
  let t := { t with providersIPs := mapDelete t.providersIPs "generic" }
  let req' :=
    if realIP ≠ "" then
      headerSet (headerSet req xForwardedForHeader realIP) xRealIPHeader realIP
    else req
  { trip := t, request := req', resolved := realIP, nextInvoked := true }

/-- The interface revision's `New` (`src/unnamed/part_001` lines 41-92) for a
configuration with an empty provider list: the registry holds all three
providers (in the model's fixed iteration order) and `providersIPs` starts
empty. -/
def NewV2Default (nets : List IPNet) (addrs : List Nat) (preferred : String) : TripV2 :=
  { genericProvider := InitializeGenericProvider nets addrs
    cloudflareProvider := InitializeCloudflareProvider nets addrs
    qratorProvider := InitializeQratorProvider nets addrs
    enabledProviders := ["generic", "cloudflare", "qrator"]
    preferredProvider := preferred
    providersIPs := [] }

/-! ### Helper lemmas about the map model -/

theorem find?_filter_of_imp {α : Type} (l : List α) (p q : α → Bool)
    (h : ∀ x, p x = true → q x = true) :
    (l.filter q).find? p = l.find? p := by
  induction l with
  | nil => rfl
  | cons x xs ih =>
    by_cases hq : q x = true
    · by_cases hp : p x = true
      · simp [List.filter_cons, hq, List.find?_cons, hp]
      · simp only [Bool.not_eq_true] at hp
        simp [List.filter_cons, hq, List.find?_cons, hp, ih]
    · have hp : p x = false := by
        cases hpx : p x
        · rfl
        · exact absurd (h x hpx) hq
      simp only [Bool.not_eq_true] at hq
      simp [List.filter_cons, hq, List.find?_cons, hp, ih]

theorem mapGet?_mapSet (m : StrMap) (k k' v : String) :
    mapGet? (mapSet m k v) k' = if k' = k then some v else mapGet? m k' := by
  by_cases h : k' = k
  · subst h
    simp [mapGet?, mapSet, List.find?_cons]
  · have hne : decide ((k, v).1 = k') = false := by
      simp [Ne.symm h]
    simp only [mapGet?, mapSet, List.find?_cons, hne, if_neg h]
    rw [find?_filter_of_imp]
    intro x hx
    simp only [decide_eq_true_eq] at hx
    simp [hx, h]

theorem headerGet_headerSet (h : StrMap) (k v k' : String) :
    headerGet (headerSet h k v) k' = if k' = k then v else headerGet h k' := by
  by_cases hk : k' = k
  · subst hk
    simp [headerGet, headerSet, List.find?_cons]
  · have hne : decide ((k, v).1 = k') = false := by
      simp [Ne.symm hk]
    simp only [headerGet, headerSet, List.find?_cons, hne, if_neg hk]
    rw [find?_filter_of_imp]
    intro x hx
    simp only [decide_eq_true_eq] at hx
    simp [hx, hk]

/-- What `fillValues` leaves at each key: provider headers present with a
non-empty value are recorded trimmed, every other binding is untouched. -/
theorem mapGet?_fillValues (hs : List String) (m req : StrMap) (k : String) :
    mapGet? (fillValues hs m req) k =
      if k ∈ hs ∧ headerGet req k ≠ "" then some (trimSpace (headerGet req k))
      else mapGet? m k := by
  induction hs generalizing m with
  | nil => simp [fillValues]
  | cons h t ih =>
    have step :
        fillValues (h :: t) m req =
          fillValues t
            (if headerGet req h ≠ "" then mapSet m h (trimSpace (headerGet req h)) else m)
            req := by
      simp [fillValues, List.foldl_cons]
    rw [step, ih]
    by_cases hkt : k ∈ t ∧ headerGet req k ≠ ""
    · simp [hkt, List.mem_cons, hkt.1, hkt.2]
    · simp only [if_neg hkt]
      by_cases hkh : k = h
      · subst hkh
        by_cases hv : headerGet req k ≠ ""
        · simp [hv, mapGet?_mapSet, List.mem_cons]
        · simp only [Ne, not_not] at hv
          simp [hv]
      · have hcond : ¬ ((k = h ∨ k ∈ t) ∧ ¬ headerGet req k = "") := by
          intro hc
          rcases hc with ⟨hmem, hval⟩
          rcases hmem with h1 | h1
          · exact hkh h1
          · exact hkt ⟨h1, hval⟩
        by_cases hv : headerGet req h ≠ ""
        · simp only [if_pos hv, mapGet?_mapSet, if_neg hkh]
          simp [hcond]
        · simp only [if_neg hv]
          simp [hcond]

/-! ### Helper lemmas about parsing and trimming -/

theorem takeDigits_spec (cs : List Char) :
    cs = (takeDigits cs).1 ++ (takeDigits cs).2 ∧
      ∀ c ∈ (takeDigits cs).1, c.isDigit = true := by
  induction cs with
  | nil => simp [takeDigits]
  | cons x xs ih =>
    by_cases hx : x.isDigit = true
    · simp only [takeDigits, hx, if_pos]
      refine ⟨by simpa using ih.1, ?_⟩
      intro c hc
      rcases List.mem_cons.mp hc with h1 | h1
      · exact h1 ▸ hx
      · exact ih.2 c h1
    · simp [takeDigits, hx]

theorem parseField_spec {cs : List Char} {v : Nat} {r : List Char}
    (h : parseField cs = some (v, r)) :
    ∃ d, cs = d ++ r ∧ d ≠ [] ∧ ∀ c ∈ d, c.isDigit = true := by
  unfold parseField at h
  by_cases h1 : (takeDigits cs).1 = []
  · simp [h1] at h
  · simp only [h1, if_neg, if_false] at h
    by_cases h2 : 1 < (takeDigits cs).1.length ∧ (takeDigits cs).1.head? = some '0'
    · simp [h2] at h
    · simp only [h2, if_neg, if_false] at h
      by_cases h3 : digitsToNat (takeDigits cs).1 ≤ 255
      · simp only [h3, if_pos, Option.some.injEq, Prod.mk.injEq] at h
        refine ⟨(takeDigits cs).1, ?_, h1, (takeDigits_spec cs).2⟩
        rw [← h.2]
        exact (takeDigits_spec cs).1
      · simp [h3] at h

theorem expectDot_spec {cs r : List Char} (h : expectDot cs = some r) :
    cs = '.' :: r := by
  cases cs with
  | nil => simp [expectDot] at h
  | cons x xs =>
    by_cases hx : x = '.'
    · subst hx
      simp only [expectDot, if_pos, Option.some.injEq] at h
      rw [h]
    · simp [expectDot, hx] at h

theorem parseV4_chars {cs : List Char} {ip : Nat} (h : parseV4 cs = some ip) :
    ∀ c ∈ cs, c.isDigit = true ∨ c = '.' := by
  unfold parseV4 at h
  split at h
  · simp at h
  next a cs1 hf1 =>
  split at h
  · simp at h
  next cs2 hd1 =>
  split at h
  · simp at h
  next b cs3 hf2 =>
  split at h
  · simp at h
  next cs4 hd2 =>
  split at h
  · simp at h
  next c cs5 hf3 =>
  split at h
  · simp at h
  next cs6 hd3 =>
  split at h
  · simp at h
  next d cs7 hf4 =>
  split at h
  case isFalse => simp at h
  case isTrue hend =>
  obtain ⟨d1, e1, _, hdig1⟩ := parseField_spec hf1
  obtain ⟨d2, e2, _, hdig2⟩ := parseField_spec hf2
  obtain ⟨d3, e3, _, hdig3⟩ := parseField_spec hf3
  obtain ⟨d4, e4, _, hdig4⟩ := parseField_spec hf4
  have hcs : cs = d1 ++ '.' :: (d2 ++ '.' :: (d3 ++ '.' :: (d4 ++ cs7))) := by
    rw [e1, expectDot_spec hd1, e2, expectDot_spec hd2, e3, expectDot_spec hd3, e4]
  intro x hx
  rw [hcs, hend] at hx
  simp only [List.mem_append, List.mem_cons, List.append_nil] at hx
  rcases hx with h1 | h1 | h1 | h1 | h1 | h1 | h1
  · exact Or.inl (hdig1 x h1)
  · exact Or.inr h1
  · exact Or.inl (hdig2 x h1)
  · exact Or.inr h1
  · exact Or.inl (hdig3 x h1)
  · exact Or.inr h1
  · exact Or.inl (hdig4 x h1)

theorem isWhitespace_false_of_isDigit {c : Char} (h : c.isDigit = true) :
    c.isWhitespace = false := by
  cases hw : c.isWhitespace
  · rfl
  · exfalso
    simp only [Char.isWhitespace, Bool.or_eq_true, decide_eq_true_eq] at hw
    rcases hw with ((h1 | h1) | h1) | h1 <;> subst h1 <;> exact absurd h (by decide)

theorem isWhitespace_false_of_dot {c : Char} (h : c = '.') :
    c.isWhitespace = false := by
  rw [h]
  decide

theorem dropWhile_eq_self_of_all {p : Char → Bool} {l : List Char}
    (h : ∀ c ∈ l, p c = false) : l.dropWhile p = l := by
  cases l with
  | nil => rfl
  | cons x xs =>
    rw [List.dropWhile_cons, h x (List.mem_cons_self x xs)]
    simp

theorem trimChars_eq_self {l : List Char}
    (h : ∀ c ∈ l, c.isWhitespace = false) : trimChars l = l := by
  unfold trimChars
  rw [dropWhile_eq_self_of_all h,
    dropWhile_eq_self_of_all (fun c hc => h c (List.mem_reverse.mp hc)),
    List.reverse_reverse]

theorem trimSpace_of_parseIP {s : String} {ip : Nat} (h : parseIP s = some ip) :
    trimSpace s = s := by
  have hall : ∀ c ∈ s.data, c.isWhitespace = false := by
    intro c hc
    rcases parseV4_chars h c hc with h1 | h1
    · exact isWhitespace_false_of_isDigit h1
    · exact isWhitespace_false_of_dot h1
  show (⟨trimChars s.data⟩ : String) = s
  rw [trimChars_eq_self hall]

/-! ### Helper lemmas about the exclusion filter and provider results -/

theorem isExcludedIP_empty (nets : List IPNet) (addrs : List Nat) :
    isExcludedIP nets addrs "" = true := rfl

theorem parseIP_of_not_excluded {nets : List IPNet} {addrs : List Nat} {s : String}
    (h : isExcludedIP nets addrs s = false) : ∃ ip, parseIP s = some ip := by
  unfold isExcludedIP at h
  cases hp : parseIP s with
  | none => rw [hp] at h; simp at h
  | some ip => exact ⟨ip, rfl⟩

theorem trimSpace_of_not_excluded {nets : List IPNet} {addrs : List Nat} {s : String}
    (h : isExcludedIP nets addrs s = false) : trimSpace s = s := by
  obtain ⟨ip, hip⟩ := parseIP_of_not_excluded h
  exact trimSpace_of_parseIP hip

theorem ne_empty_of_not_excluded {nets : List IPNet} {addrs : List Nat} {s : String}
    (h : isExcludedIP nets addrs s = false) : s ≠ "" := by
  intro he
  rw [he, isExcludedIP_empty] at h
  exact Bool.true_eq_false.mp h

theorem firstNonExcludedValue_not_excluded {nets : List IPNet} {addrs : List Nat}
    {values : StrMap} (h : firstNonExcludedValue nets addrs values ≠ "") :
    isExcludedIP nets addrs (firstNonExcludedValue nets addrs values) = false := by
  cases hf : values.find? (fun kv => ¬ isExcludedIP nets addrs kv.2) with
  | none =>
    exfalso
    apply h
    unfold firstNonExcludedValue
    rw [hf]
  | some kv =>
    have hres : firstNonExcludedValue nets addrs values = kv.2 := by
      unfold firstNonExcludedValue
      rw [hf]
    rw [hres]
    have hp := List.find?_some hf
    simp only [decide_eq_true_eq] at hp
    exact Bool.eq_false_iff.mpr hp

theorem genericForwardedScan_none {nets : List IPNet} {addrs : List Nat}
    {values : StrMap} (hv : mapGet? values xForwardedForHeader = none) :
    genericForwardedScan nets addrs values = "" := by
  unfold genericForwardedScan
  rw [hv]

theorem genericForwardedScan_some {nets : List IPNet} {addrs : List Nat}
    {values : StrMap} {v : String} (hv : mapGet? values xForwardedForHeader = some v) :
    genericForwardedScan nets addrs values =
      match ((splitChars ',' v.data).map (fun t => (⟨trimChars t⟩ : String))).find?
          (fun ip => ¬ isExcludedIP nets addrs ip) with
      | some ip => ip
      | none => "" := by
  unfold genericForwardedScan
  rw [hv]

theorem genericForwardedScan_not_excluded {nets : List IPNet} {addrs : List Nat}
    {values : StrMap} (h : genericForwardedScan nets addrs values ≠ "") :
    isExcludedIP nets addrs (genericForwardedScan nets addrs values) = false := by
  cases hv : mapGet? values xForwardedForHeader with
  | none =>
    exact absurd (genericForwardedScan_none hv) h
  | some v =>
    cases hf : ((splitChars ',' v.data).map (fun t => (⟨trimChars t⟩ : String))).find?
        (fun ip => ¬ isExcludedIP nets addrs ip) with
    | none =>
      exfalso
      apply h
      rw [genericForwardedScan_some hv, hf]
    | some ip =>
      have hres : genericForwardedScan nets addrs values = ip := by
        rw [genericForwardedScan_some hv, hf]
      rw [hres]
      have hp := List.find?_some hf
      simp only [decide_eq_true_eq] at hp
      exact Bool.eq_false_iff.mpr hp

theorem genericResultOfValues_not_excluded {nets : List IPNet} {addrs : List Nat}
    {values : StrMap} (h : genericResultOfValues nets addrs values ≠ "") :
    isExcludedIP nets addrs (genericResultOfValues nets addrs values) = false := by
  cases hv : mapGet? values xRealIPHeader with
  | none =>
    have hres : genericResultOfValues nets addrs values =
        genericForwardedScan nets addrs values := by
      unfold genericResultOfValues
      rw [hv]
    rw [hres] at h ⊢
    exact genericForwardedScan_not_excluded h
  | some v =>
    by_cases he : isExcludedIP nets addrs v = false
    · have hres : genericResultOfValues nets addrs values = v := by
        unfold genericResultOfValues
        rw [hv]
        simp [he]
      rw [hres]
      exact he
    · simp only [Bool.not_eq_false] at he
      have hres : genericResultOfValues nets addrs values =
          genericForwardedScan nets addrs values := by
        unfold genericResultOfValues
        rw [hv]
        simp [he]
      rw [hres] at h ⊢
      exact genericForwardedScan_not_excluded h

theorem genericResultOfValues_someXRI {nets : List IPNet} {addrs : List Nat}
    {values : StrMap} {v : String} (hv : mapGet? values xRealIPHeader = some v)
    (hex : isExcludedIP nets addrs v = false) :
    genericResultOfValues nets addrs values = v := by
  unfold genericResultOfValues
  rw [hv]
  simp [hex]

theorem genericResultOfValues_noXRI {nets : List IPNet} {addrs : List Nat}
    {values : StrMap} (hv : mapGet? values xRealIPHeader = none) :
    genericResultOfValues nets addrs values = genericForwardedScan nets addrs values := by
  unfold genericResultOfValues
  rw [hv]

theorem genericResultOfValues_excludedXRI {nets : List IPNet} {addrs : List Nat}
    {values : StrMap} {v : String} (hv : mapGet? values xRealIPHeader = some v)
    (hex : isExcludedIP nets addrs v = true) :
    genericResultOfValues nets addrs values = genericForwardedScan nets addrs values := by
  unfold genericResultOfValues
  rw [hv]
  simp [hex]

theorem genericGetRealIP_snd (gp : Provider) (req : StrMap) :
    (genericGetRealIP gp req).2 =
      genericResultOfValues gp.excludedNetworks gp.excludedAddresses
        (fillValues gp.headers gp.values req) := rfl

theorem simpleGetRealIP_snd (p : Provider) (req : StrMap) :
    (simpleGetRealIP p req).2 =
      firstNonExcludedValue p.excludedNetworks p.excludedAddresses
        (fillValues p.headers p.values req) := rfl

/-! ### Idempotence lemmas for `fillValues` -/

theorem filter_key_mapSet_self (m : StrMap) (k v : String) :
    (mapSet m k v).filter (fun kv => kv.1 ≠ k) = m.filter (fun kv => kv.1 ≠ k) := by
  unfold mapSet
  rw [List.filter_cons]
  have : (decide ((k, v).1 ≠ k)) = false := by simp
  rw [this]
  simp only [Bool.false_eq_true, if_false, List.filter_filter]
  apply List.filter_congr
  intro x _
  rw [Bool.and_self]

theorem mapSet_mapSet_self (m : StrMap) (k v : String) :
    mapSet (mapSet m k v) k v = mapSet m k v := by
  show (k, v) :: (mapSet m k v).filter (fun kv => kv.1 ≠ k) = mapSet m k v
  rw [filter_key_mapSet_self]
  rfl

theorem filter_key_idem (m : StrMap) (k : String) :
    (m.filter (fun kv => kv.1 ≠ k)).filter (fun kv => kv.1 ≠ k) =
      m.filter (fun kv => kv.1 ≠ k) := by
  rw [List.filter_filter]
  apply List.filter_congr
  intro x _
  rw [Bool.and_self]

theorem filter_key_comm (m : StrMap) (k k' : String) :
    (m.filter (fun kv => kv.1 ≠ k)).filter (fun kv => kv.1 ≠ k') =
      (m.filter (fun kv => kv.1 ≠ k')).filter (fun kv => kv.1 ≠ k) := by
  rw [List.filter_filter, List.filter_filter]
  apply List.filter_congr
  intro x _
  rw [Bool.and_comm]

theorem mapSet_reorder (m : StrMap) (a b ta tb : String) (hab : a ≠ b) :
    mapSet (mapSet (mapSet m b tb) a ta) b tb = mapSet (mapSet m a ta) b tb := by
  have hba : b ≠ a := Ne.symm hab
  show (b, tb) :: (mapSet (mapSet m b tb) a ta).filter (fun kv => kv.1 ≠ b) =
    (b, tb) :: (mapSet m a ta).filter (fun kv => kv.1 ≠ b)
  congr 1
  show ((a, ta) :: (mapSet m b tb).filter (fun kv => kv.1 ≠ a)).filter
      (fun kv => kv.1 ≠ b) =
    ((a, ta) :: m.filter (fun kv => kv.1 ≠ a)).filter (fun kv => kv.1 ≠ b)
  rw [List.filter_cons, List.filter_cons]
  have hata : (decide ((a, ta).1 ≠ b)) = true := by simp [hab]
  rw [hata]
  simp only [if_true]
  congr 1
  show (((b, tb) :: m.filter (fun kv => kv.1 ≠ b)).filter (fun kv => kv.1 ≠ a)).filter
      (fun kv => kv.1 ≠ b) =
    (m.filter (fun kv => kv.1 ≠ a)).filter (fun kv => kv.1 ≠ b)
  rw [List.filter_cons]
  have hbtb : (decide ((b, tb).1 ≠ a)) = true := by simp [hba]
  rw [hbtb]
  simp only [if_true, List.filter_cons]
  have hbtb' : (decide ((b, tb).1 ≠ b)) = false := by simp
  rw [hbtb']
  simp only [Bool.false_eq_true, if_false]
  rw [filter_key_comm m b a, filter_key_idem]

theorem fillValues_cons (h : String) (t : List String) (m req : StrMap) :
    fillValues (h :: t) m req =
      fillValues t
        (if headerGet req h ≠ "" then mapSet m h (trimSpace (headerGet req h)) else m)
        req := by
  simp [fillValues, List.foldl_cons]

theorem fillValues_nil (m req : StrMap) : fillValues [] m req = m := rfl

theorem fillValues_one_idem (a : String) (m req req' : StrMap)
    (hag : headerGet req' a = headerGet req a) :
    fillValues [a] (fillValues [a] m req) req' = fillValues [a] m req := by
  rw [fillValues_cons, fillValues_nil, fillValues_cons, fillValues_nil, hag]
  by_cases hv : headerGet req a ≠ ""
  · rw [if_pos hv, if_pos hv, mapSet_mapSet_self]
  · rw [if_neg hv, if_neg hv]

theorem fillValues_two_idem (a b : String) (hab : a ≠ b) (m req req' : StrMap)
    (hag1 : headerGet req' a = headerGet req a)
    (hag2 : headerGet req' b = headerGet req b) :
    fillValues [a, b] (fillValues [a, b] m req) req' = fillValues [a, b] m req := by
  rw [fillValues_cons, fillValues_cons, fillValues_nil,
    fillValues_cons, fillValues_cons, fillValues_nil, hag1, hag2]
  by_cases hva : headerGet req a ≠ ""
  · by_cases hvb : headerGet req b ≠ ""
    · rw [if_pos hva, if_pos hvb, if_pos hva, if_pos hvb]
      rw [mapSet_reorder _ _ _ _ _ hab, mapSet_mapSet_self]
    · rw [if_pos hva, if_neg hvb, if_pos hva, if_neg hvb, mapSet_mapSet_self]
  · by_cases hvb : headerGet req b ≠ ""
    · rw [if_neg hva, if_pos hvb, if_neg hva, if_pos hvb, mapSet_mapSet_self]
    · rw [if_neg hva, if_neg hvb, if_neg hva, if_neg hvb]

/-! ### Provider stability across repeated invocations -/

theorem simpleGetRealIP_fst (p : Provider) (req : StrMap) :
    (simpleGetRealIP p req).1 =
      { p with values := fillValues p.headers p.values req } := rfl

theorem genericGetRealIP_fst (gp : Provider) (req : StrMap) :
    (genericGetRealIP gp req).1 =
      { gp with values := fillValues gp.headers gp.values req } := rfl

theorem simpleGetRealIP_stable (p : Provider) (req req' : StrMap)
    (hidem : fillValues p.headers (fillValues p.headers p.values req) req' =
      fillValues p.headers p.values req) :
    simpleGetRealIP (simpleGetRealIP p req).1 req' = simpleGetRealIP p req := by
  unfold simpleGetRealIP
  dsimp only
  rw [hidem]

theorem genericGetRealIP_stable (gp : Provider) (req req' : StrMap)
    (hidem : fillValues gp.headers (fillValues gp.headers gp.values req) req' =
      fillValues gp.headers gp.values req) :
    genericGetRealIP (genericGetRealIP gp req).1 req' = genericGetRealIP gp req := by
  unfold genericGetRealIP
  dsimp only
  rw [hidem]

theorem qrator_second_call (p : Provider) (req req' : StrMap)
    (hh : p.headers = [xQratorIPSourceHeader])
    (hag : headerGet req' xQratorIPSourceHeader = headerGet req xQratorIPSourceHeader) :
    simpleGetRealIP (simpleGetRealIP p req).1 req' = simpleGetRealIP p req := by
  apply simpleGetRealIP_stable
  rw [hh]
  exact fillValues_one_idem _ _ _ _ hag

theorem cloudflare_second_call (p : Provider) (req req' : StrMap)
    (hh : p.headers = [trueClientIPHeader, cfConnectingIPHeader])
    (hag1 : headerGet req' trueClientIPHeader = headerGet req trueClientIPHeader)
    (hag2 : headerGet req' cfConnectingIPHeader = headerGet req cfConnectingIPHeader) :
    simpleGetRealIP (simpleGetRealIP p req).1 req' = simpleGetRealIP p req := by
  apply simpleGetRealIP_stable
  rw [hh]
  exact fillValues_two_idem _ _ (by decide) _ _ _ hag1 hag2

theorem generic_second_call_same_req (gp : Provider) (req : StrMap)
    (hh : gp.headers = [xForwardedForHeader, xRealIPHeader]) :
    genericGetRealIP (genericGetRealIP gp req).1 req = genericGetRealIP gp req := by
  apply genericGetRealIP_stable
  rw [hh]
  exact fillValues_two_idem _ _ (by decide) _ _ _ rfl rfl

theorem generic_second_call_mutated (gp : Provider) (req : StrMap)
    (hh : gp.headers = [xForwardedForHeader, xRealIPHeader])
    (hne : (genericGetRealIP gp req).2 ≠ "") :
    (genericGetRealIP (genericGetRealIP gp req).1
      (headerSet (headerSet req xForwardedForHeader (genericGetRealIP gp req).2)
        xRealIPHeader (genericGetRealIP gp req).2)).2 =
      (genericGetRealIP gp req).2 := by
  have hnex : isExcludedIP gp.excludedNetworks gp.excludedAddresses
      (genericGetRealIP gp req).2 = false := by
    rw [genericGetRealIP_snd] at hne ⊢
    exact genericResultOfValues_not_excluded hne
  have htrim : trimSpace (genericGetRealIP gp req).2 = (genericGetRealIP gp req).2 :=
    trimSpace_of_not_excluded hnex
  have hreq1XRI : headerGet
      (headerSet (headerSet req xForwardedForHeader (genericGetRealIP gp req).2)
        xRealIPHeader (genericGetRealIP gp req).2) xRealIPHeader =
      (genericGetRealIP gp req).2 := by
    rw [headerGet_headerSet, if_pos rfl]
  rw [genericGetRealIP_snd, genericGetRealIP_fst]
  dsimp only
  have hXRI : mapGet? (fillValues gp.headers (fillValues gp.headers gp.values req)
      (headerSet (headerSet req xForwardedForHeader (genericGetRealIP gp req).2)
        xRealIPHeader (genericGetRealIP gp req).2)) xRealIPHeader =
      some (genericGetRealIP gp req).2 := by
    rw [mapGet?_fillValues]
    rw [if_pos ⟨by rw [hh]; simp, by rw [hreq1XRI]; exact hne⟩, hreq1XRI, htrim]
  exact genericResultOfValues_someXRI hXRI hnex

/-! ### Direct-revision resolution lemmas -/

theorem resolvePreferred_qrator (trip : TraefikRealIP) (req : StrMap)
    (h : trip.preferredProvider = "qrator") :
    resolvePreferred trip req =
      ({ trip with qratorProvider := (simpleGetRealIP trip.qratorProvider req).1 },
       (simpleGetRealIP trip.qratorProvider req).2) := by
  unfold resolvePreferred HasPreferredProvider
  simp [h]

theorem resolvePreferred_cloudflare (trip : TraefikRealIP) (req : StrMap)
    (h : trip.preferredProvider = "cloudflare") :
    resolvePreferred trip req =
      ({ trip with cloudflareProvider := (simpleGetRealIP trip.cloudflareProvider req).1 },
       (simpleGetRealIP trip.cloudflareProvider req).2) := by
  unfold resolvePreferred HasPreferredProvider
  simp [h]

theorem resolvePreferred_other (trip : TraefikRealIP) (req : StrMap)
    (h1 : trip.preferredProvider ≠ "cloudflare")
    (h2 : trip.preferredProvider ≠ "qrator") :
    resolvePreferred trip req = (trip, "") := by
  unfold resolvePreferred HasPreferredProvider
  by_cases h0 : trip.preferredProvider = ""
  · simp [h0]
  · simp [h0, h1, h2]

theorem ServeHTTP_resolved (trip : TraefikRealIP) (req : StrMap) :
    (ServeHTTP trip req).resolved = (resolveRealIP trip req).2 := rfl

theorem ServeHTTP_request (trip : TraefikRealIP) (req : StrMap) :
    (ServeHTTP trip req).request =
      if (resolveRealIP trip req).2 ≠ "" then
        headerSet (headerSet req xForwardedForHeader (resolveRealIP trip req).2)
          xRealIPHeader (resolveRealIP trip req).2
      else req := rfl

theorem ServeHTTP_trip (trip : TraefikRealIP) (req : StrMap) :
    (ServeHTTP trip req).trip = (resolveRealIP trip req).1 := rfl

theorem resolveRealIP_via {trip trip' : TraefikRealIP} {req : StrMap} {p : String}
    (hstep : resolvePreferred trip req = (trip', p)) :
    resolveRealIP trip req =
      if p = "" then
        ({ trip' with genericProvider := (genericGetRealIP trip'.genericProvider req).1 },
          (genericGetRealIP trip'.genericProvider req).2)
      else (trip', p) := by
  unfold resolveRealIP
  rw [hstep]

/-! ### Concrete fixtures (drawn from the repository's test table) -/

/-- A handler state as `New` constructs it. -/
def mkTrip (nets : List IPNet) (addrs : List Nat) (pref : String) : TraefikRealIP :=
  { excludedNetworks := nets
    excludedAddresses := addrs
    genericProvider := InitializeGenericProvider nets addrs
    cloudflareProvider := InitializeCloudflareProvider nets addrs
    qratorProvider := InitializeQratorProvider nets addrs
    preferredProvider := pref }

/-- The five-header request of the repository's preferred-provider tests. -/
def reqAll : StrMap :=
  [(xForwardedForHeader, "10.0.0.20"), (xRealIPHeader, "10.0.0.20"),
   (xQratorIPSourceHeader, "10.0.0.30"), (trueClientIPHeader, "10.0.0.40"),
   (cfConnectingIPHeader, "10.0.0.40")]

/-- The same request without the Qrator header (fallback test case). -/
def reqNoQrator : StrMap :=
  [(xForwardedForHeader, "10.0.0.20"), (xRealIPHeader, "10.0.0.20"),
   (trueClientIPHeader, "10.0.0.40"), (cfConnectingIPHeader, "10.0.0.40")]

/-- A request with one generic header and one unrelated header. -/
def reqPlain : StrMap :=
  [(xRealIPHeader, "10.0.0.20"), ("Foo", "bar")]

/-! ### Claim theorems -/

/-- C1: when a preferred provider is configured and that provider yields a
non-empty (hence non-excluded) candidate, `ServeHTTP` resolves to the
preferred provider's candidate; when the preferred provider yields no
candidate, the resolved address is the generic provider's value. -/
theorem serveHTTP_preferred_provider_wins (trip : TraefikRealIP) (req : StrMap) :
    (trip.preferredProvider = "qrator" →
      ((simpleGetRealIP trip.qratorProvider req).2 ≠ "" →
        (ServeHTTP trip req).resolved = (simpleGetRealIP trip.qratorProvider req).2) ∧
      ((simpleGetRealIP trip.qratorProvider req).2 = "" →
        (ServeHTTP trip req).resolved = (genericGetRealIP trip.genericProvider req).2)) ∧
    (trip.preferredProvider = "cloudflare" →
      ((simpleGetRealIP trip.cloudflareProvider req).2 ≠ "" →
        (ServeHTTP trip req).resolved = (simpleGetRealIP trip.cloudflareProvider req).2) ∧
      ((simpleGetRealIP trip.cloudflareProvider req).2 = "" →
        (ServeHTTP trip req).resolved = (genericGetRealIP trip.genericProvider req).2)) := by
  constructor
  · intro hq
    constructor
    · intro hne
      rw [ServeHTTP_resolved]
      unfold resolveRealIP
      rw [resolvePreferred_qrator trip req hq]
      simp [hne]
    · intro hz
      rw [ServeHTTP_resolved]
      unfold resolveRealIP
      rw [resolvePreferred_qrator trip req hq]
      simp [hz]
  · intro hc
    constructor
    · intro hne
      rw [ServeHTTP_resolved]
      unfold resolveRealIP
      rw [resolvePreferred_cloudflare trip req hc]
      simp [hne]
    · intro hz
      rw [ServeHTTP_resolved]
      unfold resolveRealIP
      rw [resolvePreferred_cloudflare trip req hc]
      simp [hz]

/-- C1, witness at the repository's test inputs: with
`preferredProvider=qrator` the five-header request resolves to the
`X-Qrator-IP-Source` value `10.0.0.30`; without a Qrator header the resolved
address falls back to the generic value `10.0.0.20`. -/
theorem serveHTTP_preferred_provider_wins_witness :
    (ServeHTTP (mkTrip [] [] "qrator") reqAll).resolved = "10.0.0.30" ∧
    (ServeHTTP (mkTrip [] [] "qrator") reqNoQrator).resolved = "10.0.0.20" := by
  constructor
  · have h := ((serveHTTP_preferred_provider_wins (mkTrip [] [] "qrator") reqAll).1
      rfl).1 (by decide)
    rw [h]
    decide
  · have h := ((serveHTTP_preferred_provider_wins (mkTrip [] [] "qrator") reqNoQrator).1
      rfl).2 (by decide)
    rw [h]
    decide

/-- C6: `ServeHTTP` always invokes the next handler; when an address was
resolved, exactly the `X-Forwarded-For` and `X-Real-Ip` request headers are
overwritten with it and every other header is unchanged; when no address was
resolved the request is forwarded unmodified. -/
theorem serveHTTP_frame (trip : TraefikRealIP) (req : StrMap) :
    (ServeHTTP trip req).nextInvoked = true ∧
    ((ServeHTTP trip req).resolved ≠ "" →
      headerGet (ServeHTTP trip req).request xForwardedForHeader =
        (ServeHTTP trip req).resolved ∧
      headerGet (ServeHTTP trip req).request xRealIPHeader =
        (ServeHTTP trip req).resolved ∧
      ∀ k, k ≠ xForwardedForHeader → k ≠ xRealIPHeader →
        headerGet (ServeHTTP trip req).request k = headerGet req k) ∧
    ((ServeHTTP trip req).resolved = "" → (ServeHTTP trip req).request = req) := by
  refine ⟨rfl, ?_, ?_⟩
  · intro hne
    rw [ServeHTTP_resolved] at hne
    rw [ServeHTTP_request, if_pos hne, ServeHTTP_resolved]
    refine ⟨?_, ?_, ?_⟩
    · rw [headerGet_headerSet, if_neg (by decide), headerGet_headerSet, if_pos rfl]
    · rw [headerGet_headerSet, if_pos rfl]
    · intro k h1 h2
      rw [headerGet_headerSet, if_neg h2, headerGet_headerSet, if_neg h1]
  · intro hz
    rw [ServeHTTP_resolved] at hz
    rw [ServeHTTP_request, if_neg (by simp [hz])]

/-- C6, witness: on a concrete request, both normalized headers carry the
resolved address and an unrelated header is untouched. -/
theorem serveHTTP_frame_witness :
    headerGet (ServeHTTP (mkTrip [] [] "") reqPlain).request xForwardedForHeader =
      (ServeHTTP (mkTrip [] [] "") reqPlain).resolved ∧
    headerGet (ServeHTTP (mkTrip [] [] "") reqPlain).request "Foo" =
      headerGet reqPlain "Foo" := by
  have h := (serveHTTP_frame (mkTrip [] [] "") reqPlain).2.1 (by decide)
  exact ⟨h.1, h.2.2 "Foo" (by decide) (by decide)⟩

/-- Whether `New` rejected the configuration. -/
def newErrored (config : Config) : Bool :=
  match New config with
  | Except.error _ => true
  | Except.ok _ => false

theorem parseExcludedNetworks_error {l : List String}
    (h : ∃ v ∈ l, parseCIDR v = none) :
    ∃ e, parseExcludedNetworks l = Except.error e := by
  induction l with
  | nil => simp at h
  | cons x xs ih =>
    rcases h with ⟨v, hv, hparse⟩
    rcases List.mem_cons.mp hv with h1 | h1
    · subst h1
      exact ⟨"invalid CIDR address: " ++ v, by unfold parseExcludedNetworks; rw [hparse]⟩
    · cases hx : parseCIDR x with
      | none => exact ⟨"invalid CIDR address: " ++ x, by unfold parseExcludedNetworks; rw [hx]⟩
      | some n =>
        obtain ⟨e, he⟩ := ih ⟨v, h1, hparse⟩
        refine ⟨e, ?_⟩
        unfold parseExcludedNetworks
        rw [hx, he]

theorem parseExcludedNetworks_ok {l : List String}
    (h : ∀ v ∈ l, parseCIDR v ≠ none) :
    ∃ ns, parseExcludedNetworks l = Except.ok ns := by
  induction l with
  | nil => exact ⟨[], rfl⟩
  | cons x xs ih =>
    cases hx : parseCIDR x with
    | none => exact absurd hx (h x (List.mem_cons_self x xs))
    | some n =>
      obtain ⟨ns, hns⟩ := ih (fun v hv => h v (List.mem_cons_of_mem x hv))
      refine ⟨n :: ns, ?_⟩
      unfold parseExcludedNetworks
      rw [hx, hns]

theorem New_error_form {config : Config} {e : String}
    (hn : parseExcludedNetworks config.excludedNetworks = Except.error e) :
    New config = Except.error e := by
  unfold New
  rw [hn]

theorem New_ok_form {config : Config} {ns : List IPNet}
    (hn : parseExcludedNetworks config.excludedNetworks = Except.ok ns) :
    New config =
      (if config.preferredProvider ≠ "" ∧ ¬ IsValidProvider config.preferredProvider then
        Except.error ("preferred provider " ++ config.preferredProvider ++ " is not valid")
      else if config.providers.any (fun p => ¬ IsValidProvider p) then
        Except.error "provider is not valid"
      else
        Except.ok
          { excludedNetworks := ns
            excludedAddresses := config.excludedAddresses.filterMap parseIP
            genericProvider := InitializeGenericProvider ns
              (config.excludedAddresses.filterMap parseIP)
            cloudflareProvider := InitializeCloudflareProvider ns
              (config.excludedAddresses.filterMap parseIP)
            qratorProvider := InitializeQratorProvider ns
              (config.excludedAddresses.filterMap parseIP)
            preferredProvider := config.preferredProvider }) := by
  unfold New
  rw [hn]

/-- C7: construction fails for every configuration containing a malformed
CIDR in `excludedNetworks`, an unrecognized name in `providers`, or an
unrecognized non-empty `preferredProvider`; whereas a configuration that is
otherwise valid but has unparseable `excludedAddresses` entries constructs
successfully, with exactly the parseable entries kept (unparseable ones
silently dropped). -/
theorem new_validation (config : Config) :
    ((∃ v ∈ config.excludedNetworks, parseCIDR v = none) → newErrored config = true) ∧
    ((∃ p ∈ config.providers, IsValidProvider p = false) → newErrored config = true) ∧
    (config.preferredProvider ≠ "" → IsValidProvider config.preferredProvider = false →
      newErrored config = true) ∧
    ((∀ v ∈ config.excludedNetworks, parseCIDR v ≠ none) →
      (∀ p ∈ config.providers, IsValidProvider p = true) →
      (config.preferredProvider = "" ∨ IsValidProvider config.preferredProvider = true) →
      ∃ trip, New config = Except.ok trip ∧
        trip.excludedAddresses = config.excludedAddresses.filterMap parseIP) := by
  refine ⟨?_, ?_, ?_, ?_⟩
  · intro h
    obtain ⟨e, he⟩ := parseExcludedNetworks_error h
    unfold newErrored
    rw [New_error_form he]
  · intro h
    unfold newErrored
    cases hn : parseExcludedNetworks config.excludedNetworks with
    | error e => rw [New_error_form hn]
    | ok ns =>
      rw [New_ok_form hn]
      by_cases hp : config.preferredProvider ≠ "" ∧
          ¬ IsValidProvider config.preferredProvider = true
      · rw [if_pos hp]
      · rw [if_neg hp]
        have hany : config.providers.any (fun p => ¬ IsValidProvider p) = true := by
          rcases h with ⟨p, hmem, hval⟩
          simp only [List.any_eq_true]
          exact ⟨p, hmem, by simp [hval]⟩
        rw [if_pos hany]
  · intro h1 h2
    unfold newErrored
    cases hn : parseExcludedNetworks config.excludedNetworks with
    | error e => rw [New_error_form hn]
    | ok ns =>
      rw [New_ok_form hn]
      rw [if_pos ⟨h1, by simp [h2]⟩]
  · intro hnets hprov hpref
    obtain ⟨ns, hns⟩ := parseExcludedNetworks_ok hnets
    rw [New_ok_form hns]
    have hprefCond : ¬ (config.preferredProvider ≠ "" ∧
        ¬ IsValidProvider config.preferredProvider = true) := by
      rcases hpref with h | h
      · intro hc
        exact hc.1 h
      · intro hc
        exact hc.2 (by simp [h])
    rw [if_neg hprefCond]
    have hanyFalse : ¬ config.providers.any (fun p => ¬ IsValidProvider p) = true := by
      simp only [List.any_eq_true, not_exists]
      intro p hc
      rcases hc with ⟨hmem, hval⟩
      exact absurd (hprov p hmem) (by simpa using hval)
    rw [if_neg hanyFalse]
    exact ⟨_, rfl, rfl⟩

/-- Test configuration: malformed CIDR. -/
def cfgBadNetwork : Config :=
  { excludedNetworks := ["invalid"]
    excludedAddresses := []
    providers := []
    preferredProvider := "" }

/-- Test configuration: unrecognized provider name. -/
def cfgBadProvider : Config :=
  { excludedNetworks := []
    excludedAddresses := []
    providers := ["invalid"]
    preferredProvider := "" }

/-- Test configuration: unrecognized preferred provider. -/
def cfgBadPreferred : Config :=
  { excludedNetworks := []
    excludedAddresses := []
    providers := []
    preferredProvider := "invalid" }

/-- Test configuration: unparseable excluded address. -/
def cfgBadAddress : Config :=
  { excludedNetworks := []
    excludedAddresses := ["invalid"]
    providers := []
    preferredProvider := "" }

/-- C7, witness at the repository's test configurations: a malformed CIDR, a
bad provider name and a bad preferred provider each abort construction,
while a malformed excluded address is silently dropped. -/
theorem new_validation_witness :
    newErrored cfgBadNetwork = true ∧
    newErrored cfgBadProvider = true ∧
    newErrored cfgBadPreferred = true ∧
    ∃ trip, New cfgBadAddress = Except.ok trip ∧
      trip.excludedAddresses = cfgBadAddress.excludedAddresses.filterMap parseIP := by
  refine ⟨?_, ?_, ?_, ?_⟩
  · exact (new_validation cfgBadNetwork).1 ⟨"invalid", by decide, by decide⟩
  · exact (new_validation cfgBadProvider).2.1 ⟨"invalid", by decide, by decide⟩
  · exact (new_validation cfgBadPreferred).2.2.1 (by decide) (by decide)
  · exact (new_validation cfgBadAddress).2.2.2 (by decide) (by decide) (Or.inl rfl)

/-- C2 counterexample: on the interface revision, with
`preferredProvider=qrator` and the repository's five-header request, the
generic provider records `10.0.0.20` and the Qrator provider records
`10.0.0.30` — both non-empty — yet the resolver's final address is the
preferred provider's `10.0.0.30`, not the generic one, refuting the claim
that the generic result is final whenever present. -/
theorem generic_result_is_not_final :
    (genericGetRealIP (NewV2Default [] [] "qrator").genericProvider reqAll).2 =
      "10.0.0.20" ∧
    (simpleGetRealIP (NewV2Default [] [] "qrator").qratorProvider reqAll).2 =
      "10.0.0.30" ∧
    (ServeHTTPv2 (NewV2Default [] [] "qrator") reqAll).resolved = "10.0.0.30" ∧
    (ServeHTTPv2 (NewV2Default [] [] "qrator") reqAll).resolved ≠ "10.0.0.20" := by
  refine ⟨by decide, by decide, by decide, by decide⟩

/-- C2 amended: in the interface revision's selection step, when a preferred
provider is configured and has a recorded (necessarily non-empty) result
other than under the `generic` key, that result is the final address even
when `generic` also produced one; the generic result is final only when the
preferred provider has no recorded result. -/
theorem selectRealIP_preferred_precedence (order : List String) (preferred : String)
    (ips : StrMap) (hp : preferred ≠ "") :
    (∀ v, mapGet? (mapDelete ips "generic") preferred = some v →
      selectRealIP order preferred ips = v) ∧
    (mapGet? (mapDelete ips "generic") preferred = none →
      selectRealIP order preferred ips =
        match mapGet? ips "generic" with
        | some v => v
        | none => "") := by
  constructor
  · intro v hv
    have hne : 0 < (mapDelete ips "generic").length := by
      cases hrest : mapDelete ips "generic" with
      | nil => rw [hrest] at hv; simp [mapGet?] at hv
      | cons x xs => simp [hrest]
    simp only [selectRealIP]
    rw [if_pos hne, if_pos hp, hv]
  · intro hv
    by_cases hne : 0 < (mapDelete ips "generic").length
    · simp only [selectRealIP]
      rw [if_pos hne, if_pos hp, hv]
    · simp only [selectRealIP]
      rw [if_neg hne]

/-- C2 amended, witness: with results recorded for all three providers and
`preferredProvider=qrator`, selection returns the Qrator value; with no
Qrator result recorded it returns the generic value. -/
theorem selectRealIP_preferred_precedence_witness :
    selectRealIP ["generic", "cloudflare", "qrator"] "qrator"
      [("generic", "10.0.0.20"), ("cloudflare", "10.0.0.40"),
       ("qrator", "10.0.0.30")] = "10.0.0.30" ∧
    selectRealIP ["generic", "cloudflare", "qrator"] "qrator"
      [("generic", "10.0.0.20"), ("cloudflare", "10.0.0.40")] = "10.0.0.20" := by
  constructor
  · exact (selectRealIP_preferred_precedence ["generic", "cloudflare", "qrator"]
      "qrator" [("generic", "10.0.0.20"), ("cloudflare", "10.0.0.40"),
        ("qrator", "10.0.0.30")] (by decide)).1 "10.0.0.30" (by decide)
  · have h := (selectRealIP_preferred_precedence ["generic", "cloudflare", "qrator"]
      "qrator" [("generic", "10.0.0.20"), ("cloudflare", "10.0.0.40")]
      (by decide)).2 (by decide)
    rw [h]
    decide

theorem resolvePreferredOrd_canonical (trip : TraefikRealIP) (req : StrMap) :
    resolvePreferredOrd trip req
      (fillValues trip.cloudflareProvider.headers trip.cloudflareProvider.values req)
      (fillValues trip.qratorProvider.headers trip.qratorProvider.values req) =
      resolvePreferred trip req := by
  unfold resolvePreferredOrd resolvePreferred simpleGetRealIPOrd simpleGetRealIP
  by_cases hq : trip.preferredProvider = "qrator"
  · simp [hq]
  · by_cases hc : trip.preferredProvider = "cloudflare"
    · simp [hc]
    · simp [hq, hc]

/-- Fixing each value loop's visit sequence to the filled association list
in order recovers `ServeHTTP`: the deterministic model is one admissible
resolution of Go's unspecified map range order. -/
theorem ServeHTTPOrd_canonical (trip : TraefikRealIP) (req : StrMap) :
    ServeHTTPOrd trip req
      (fillValues trip.cloudflareProvider.headers trip.cloudflareProvider.values req)
      (fillValues trip.qratorProvider.headers trip.qratorProvider.values req) =
      ServeHTTP trip req := by
  unfold ServeHTTPOrd ServeHTTP resolveRealIPOrd resolveRealIP
  rw [resolvePreferredOrd_canonical]

/-- A handler with `preferredProvider=cloudflare` and no exclusions. -/
def tripCfPref : TraefikRealIP := mkTrip [] [] "cloudflare"

/-- A request whose two Cloudflare headers carry distinct non-excluded
addresses. -/
def reqTwoCf : StrMap :=
  [(trueClientIPHeader, "10.0.0.50"), (cfConnectingIPHeader, "10.0.0.60")]

/-- Visit sequence seeing `True-Client-IP` first. -/
def visitTciFirst : StrMap :=
  [(trueClientIPHeader, "10.0.0.50"), (cfConnectingIPHeader, "10.0.0.60")]

/-- Visit sequence seeing `CF-Connecting-IP` first. -/
def visitCfcFirst : StrMap :=
  [(cfConnectingIPHeader, "10.0.0.60"), (trueClientIPHeader, "10.0.0.50")]

/-- C9 counterexample: Go re-randomizes map range order on every loop, so
the two successive `ServeHTTP` invocations may scan the Cloudflare values
map in different orders.  With `preferredProvider=cloudflare` and distinct
non-excluded `True-Client-IP` / `CF-Connecting-IP` values, a first call
visiting `True-Client-IP` first resolves `10.0.0.50` while the second call
on the state and request it left behind, visiting `CF-Connecting-IP` first,
resolves `10.0.0.60` — both visit sequences being permutations of the
respective filled values maps, i.e. admissible Go map range orders.  The
resolved address therefore need not repeat across the two calls. -/
theorem serveHTTP_not_idempotent_under_go_map_order :
    List.Perm visitTciFirst
      (fillValues tripCfPref.cloudflareProvider.headers
        tripCfPref.cloudflareProvider.values reqTwoCf) ∧
    (ServeHTTPOrd tripCfPref reqTwoCf visitTciFirst []).resolved = "10.0.0.50" ∧
    List.Perm visitCfcFirst
      (fillValues
        (ServeHTTPOrd tripCfPref reqTwoCf visitTciFirst []).trip.cloudflareProvider.headers
        (ServeHTTPOrd tripCfPref reqTwoCf visitTciFirst []).trip.cloudflareProvider.values
        (ServeHTTPOrd tripCfPref reqTwoCf visitTciFirst []).request) ∧
    (ServeHTTPOrd (ServeHTTPOrd tripCfPref reqTwoCf visitTciFirst []).trip
      (ServeHTTPOrd tripCfPref reqTwoCf visitTciFirst []).request
      visitCfcFirst []).resolved = "10.0.0.60" ∧
    ("10.0.0.50" : String) ≠ "10.0.0.60" := by
  refine ⟨by decide, by decide, by decide, by decide, by decide⟩

/-- C9 amended: invoking `ServeHTTP` twice in sequence — the second call on
the handler state and request left behind by the first, with no external
mutation in between — resolves the same final address both times, provided
both invocations scan each provider's values map in the same deterministic
order (the association-list order fixed by `ServeHTTP`; one admissible
resolution of Go's unspecified, per-loop re-randomized map range order, under
which the property fails — see the counterexample).  The hypotheses state
that the handler's providers carry their declared header lists, as every
handler built by `New` does. -/
theorem serveHTTP_idempotent (trip : TraefikRealIP) (req : StrMap)
    (hgen : trip.genericProvider.headers = [xForwardedForHeader, xRealIPHeader])
    (hcf : trip.cloudflareProvider.headers = [trueClientIPHeader, cfConnectingIPHeader])
    (hq : trip.qratorProvider.headers = [xQratorIPSourceHeader]) :
    (ServeHTTP (ServeHTTP trip req).trip (ServeHTTP trip req).request).resolved =
      (ServeHTTP trip req).resolved := by
  simp only [ServeHTTP_resolved, ServeHTTP_trip, ServeHTTP_request]
  by_cases hpq : trip.preferredProvider = "qrator"
  · have h1 := resolveRealIP_via (resolvePreferred_qrator trip req hpq)
    by_cases hqz : (simpleGetRealIP trip.qratorProvider req).2 = ""
    · rw [h1, if_pos hqz]
      dsimp only
      by_cases hgz : (genericGetRealIP trip.genericProvider req).2 = ""
      · rw [if_neg (by simp [hgz])]
        have h2 := resolveRealIP_via (resolvePreferred_qrator
          { trip with
              qratorProvider := (simpleGetRealIP trip.qratorProvider req).1
              genericProvider := (genericGetRealIP trip.genericProvider req).1 } req hpq)
        dsimp only at h2
        rw [qrator_second_call trip.qratorProvider req req hq rfl] at h2
        rw [h2, if_pos hqz]
        dsimp only
        rw [generic_second_call_same_req trip.genericProvider req hgen]
      · rw [if_pos hgz]
        have hagQ : headerGet
            (headerSet (headerSet req xForwardedForHeader
              (genericGetRealIP trip.genericProvider req).2) xRealIPHeader
              (genericGetRealIP trip.genericProvider req).2) xQratorIPSourceHeader =
            headerGet req xQratorIPSourceHeader := by
          rw [headerGet_headerSet, if_neg (by decide), headerGet_headerSet,
            if_neg (by decide)]
        have h2 := resolveRealIP_via (resolvePreferred_qrator
          { trip with
              qratorProvider := (simpleGetRealIP trip.qratorProvider req).1
              genericProvider := (genericGetRealIP trip.genericProvider req).1 }
          (headerSet (headerSet req xForwardedForHeader
            (genericGetRealIP trip.genericProvider req).2) xRealIPHeader
            (genericGetRealIP trip.genericProvider req).2) hpq)
        dsimp only at h2
        rw [qrator_second_call trip.qratorProvider req _ hq hagQ] at h2
        rw [h2, if_pos hqz]
        dsimp only
        exact generic_second_call_mutated trip.genericProvider req hgen hgz
    · rw [h1, if_neg hqz]
      dsimp only
      rw [if_pos hqz]
      have hagQ : headerGet
          (headerSet (headerSet req xForwardedForHeader
            (simpleGetRealIP trip.qratorProvider req).2) xRealIPHeader
            (simpleGetRealIP trip.qratorProvider req).2) xQratorIPSourceHeader =
          headerGet req xQratorIPSourceHeader := by
        rw [headerGet_headerSet, if_neg (by decide), headerGet_headerSet,
          if_neg (by decide)]
      have h2 := resolveRealIP_via (resolvePreferred_qrator
        { trip with qratorProvider := (simpleGetRealIP trip.qratorProvider req).1 }
        (headerSet (headerSet req xForwardedForHeader
          (simpleGetRealIP trip.qratorProvider req).2) xRealIPHeader
          (simpleGetRealIP trip.qratorProvider req).2) hpq)
      dsimp only at h2
      rw [qrator_second_call trip.qratorProvider req _ hq hagQ] at h2
      rw [h2, if_neg hqz]
  · by_cases hpc : trip.preferredProvider = "cloudflare"
    · have h1 := resolveRealIP_via (resolvePreferred_cloudflare trip req hpc)
      by_cases hcz : (simpleGetRealIP trip.cloudflareProvider req).2 = ""
      · rw [h1, if_pos hcz]
        dsimp only
        by_cases hgz : (genericGetRealIP trip.genericProvider req).2 = ""
        · rw [if_neg (by simp [hgz])]
          have h2 := resolveRealIP_via (resolvePreferred_cloudflare
            { trip with
                cloudflareProvider := (simpleGetRealIP trip.cloudflareProvider req).1
                genericProvider := (genericGetRealIP trip.genericProvider req).1 } req hpc)
          dsimp only at h2
          rw [cloudflare_second_call trip.cloudflareProvider req req hcf rfl rfl] at h2
          rw [h2, if_pos hcz]
          dsimp only
          rw [generic_second_call_same_req trip.genericProvider req hgen]
        · rw [if_pos hgz]
          have hagT : headerGet
              (headerSet (headerSet req xForwardedForHeader
                (genericGetRealIP trip.genericProvider req).2) xRealIPHeader
                (genericGetRealIP trip.genericProvider req).2) trueClientIPHeader =
              headerGet req trueClientIPHeader := by
            rw [headerGet_headerSet, if_neg (by decide), headerGet_headerSet,
              if_neg (by decide)]
          have hagC : headerGet
              (headerSet (headerSet req xForwardedForHeader
                (genericGetRealIP trip.genericProvider req).2) xRealIPHeader
                (genericGetRealIP trip.genericProvider req).2) cfConnectingIPHeader =
              headerGet req cfConnectingIPHeader := by
            rw [headerGet_headerSet, if_neg (by decide), headerGet_headerSet,
              if_neg (by decide)]
          have h2 := resolveRealIP_via (resolvePreferred_cloudflare
            { trip with
                cloudflareProvider := (simpleGetRealIP trip.cloudflareProvider req).1
                genericProvider := (genericGetRealIP trip.genericProvider req).1 }
            (headerSet (headerSet req xForwardedForHeader
              (genericGetRealIP trip.genericProvider req).2) xRealIPHeader
              (genericGetRealIP trip.genericProvider req).2) hpc)
          dsimp only at h2
          rw [cloudflare_second_call trip.cloudflareProvider req _ hcf hagT hagC] at h2
          rw [h2, if_pos hcz]
          dsimp only
          exact generic_second_call_mutated trip.genericProvider req hgen hgz
      · rw [h1, if_neg hcz]
        dsimp only
        rw [if_pos hcz]
        have hagT : headerGet
            (headerSet (headerSet req xForwardedForHeader
              (simpleGetRealIP trip.cloudflareProvider req).2) xRealIPHeader
              (simpleGetRealIP trip.cloudflareProvider req).2) trueClientIPHeader =
            headerGet req trueClientIPHeader := by
          rw [headerGet_headerSet, if_neg (by decide), headerGet_headerSet,
            if_neg (by decide)]
        have hagC : headerGet
            (headerSet (headerSet req xForwardedForHeader
              (simpleGetRealIP trip.cloudflareProvider req).2) xRealIPHeader
              (simpleGetRealIP trip.cloudflareProvider req).2) cfConnectingIPHeader =
            headerGet req cfConnectingIPHeader := by
          rw [headerGet_headerSet, if_neg (by decide), headerGet_headerSet,
            if_neg (by decide)]
        have h2 := resolveRealIP_via (resolvePreferred_cloudflare
          { trip with cloudflareProvider := (simpleGetRealIP trip.cloudflareProvider req).1 }
          (headerSet (headerSet req xForwardedForHeader
            (simpleGetRealIP trip.cloudflareProvider req).2) xRealIPHeader
            (simpleGetRealIP trip.cloudflareProvider req).2) hpc)
        dsimp only at h2
        rw [cloudflare_second_call trip.cloudflareProvider req _ hcf hagT hagC] at h2
        rw [h2, if_neg hcz]
    · have h1 := resolveRealIP_via (resolvePreferred_other trip req hpc hpq)
      rw [h1, if_pos rfl]
      dsimp only
      by_cases hgz : (genericGetRealIP trip.genericProvider req).2 = ""
      · rw [if_neg (by simp [hgz])]
        have h2 := resolveRealIP_via (resolvePreferred_other
          { trip with genericProvider := (genericGetRealIP trip.genericProvider req).1 }
          req hpc hpq)
        rw [h2, if_pos rfl]
        dsimp only
        rw [generic_second_call_same_req trip.genericProvider req hgen]
      · rw [if_pos hgz]
        have h2 := resolveRealIP_via (resolvePreferred_other
          { trip with genericProvider := (genericGetRealIP trip.genericProvider req).1 }
          (headerSet (headerSet req xForwardedForHeader
            (genericGetRealIP trip.genericProvider req).2) xRealIPHeader
            (genericGetRealIP trip.genericProvider req).2) hpc hpq)
        rw [h2, if_pos rfl]
        dsimp only
        exact generic_second_call_mutated trip.genericProvider req hgen hgz

/-- C9, witness: a fresh preferred-qrator handler on the five-header test
request resolves the same address on two successive invocations. -/
theorem serveHTTP_idempotent_witness :
    (ServeHTTP (ServeHTTP (mkTrip [] [] "qrator") reqAll).trip
      (ServeHTTP (mkTrip [] [] "qrator") reqAll).request).resolved =
      (ServeHTTP (mkTrip [] [] "qrator") reqAll).resolved :=
  serveHTTP_idempotent (mkTrip [] [] "qrator") reqAll rfl rfl rfl

/-- The qrator-only first request of the C5 scenario. -/
def reqQratorOnly : StrMap := [(xQratorIPSourceHeader, "10.0.0.30")]

/-- The empty second request of the C5 scenario. -/
def reqEmpty : StrMap := []

/-- C5: in the interface revision, the per-provider results map and the
providers' extracted-values maps are handler state that is never cleared: a
first request carrying only the Qrator header leaves a `qrator` entry in
`providersIPs`, and a second, completely header-less request served by the
same handler instance still resolves to `10.0.0.30`, while the same empty
request on a fresh handler resolves to nothing — so the resolved address is
not a function of the current request alone. -/
theorem v2_resolution_leaks_state_across_requests :
    mapGet? (ServeHTTPv2 (NewV2Default [] [] "") reqQratorOnly).trip.providersIPs
      "qrator" = some "10.0.0.30" ∧
    headerGet reqEmpty xQratorIPSourceHeader = "" ∧
    (ServeHTTPv2 (ServeHTTPv2 (NewV2Default [] [] "") reqQratorOnly).trip
      reqEmpty).resolved = "10.0.0.30" ∧
    (ServeHTTPv2 (NewV2Default [] [] "") reqEmpty).resolved = "" := by
  refine ⟨by decide, by decide, by decide, by decide⟩

/-- C3: for every candidate string, the exclusion test returns true if IP
parsing of the string fails (fail-closed, e.g. `IsExcluded("not-an-ip")` is
true), and for every string that parses as an IP it returns true exactly when
the address lies inside some configured excluded CIDR network or equals some
configured excluded address, and false otherwise. -/
theorem isExcludedIP_fail_closed_and_membership (nets : List IPNet) (addrs : List Nat)
    (s : String) :
    (isExcludedIP nets addrs s = true ↔
      parseIP s = none ∨
        ∃ ip, parseIP s = some ip ∧
          ((∃ n ∈ nets, ipNetContains n ip = true) ∨ ∃ a ∈ addrs, ip = a)) ∧
    isExcludedIP nets addrs "not-an-ip" = true := by
  constructor
  · unfold isExcludedIP
    cases hp : parseIP s with
    | none => simp
    | some ip =>
      simp only [Bool.or_eq_true, List.any_eq_true, decide_eq_true_eq,
        Option.some.injEq, reduceCtorEq, false_or]
      constructor
      · intro h
        exact ⟨ip, rfl, h⟩
      · rintro ⟨ip', hip', h⟩
        rw [hip']
        exact h
  · rfl

/-- C8: a provider's extracted-values mapping built by `fillValues` from an
empty map records, for each provider header, exactly the current request's
trimmed value; headers absent from the request or present with an empty
value contribute no entry, and no other key is ever bound. -/
theorem fillValues_from_request_only (hs : List String) (req : StrMap) (k : String) :
    mapGet? (fillValues hs [] req) k =
      if k ∈ hs ∧ headerGet req k ≠ "" then some (trimSpace (headerGet req k))
      else none := by
  rw [mapGet?_fillValues]
  rcases h : decide (k ∈ hs ∧ headerGet req k ≠ "") with _ | _
  · simp only [decide_eq_false_iff_not] at h
    simp [h, mapGet?]
  · simp only [decide_eq_true_eq] at h
    simp [h]

/-- C10 counterexample: the generic provider's `GetHeaders()` does not return
`X-Real-Ip` first — its header list is declared `X-Forwarded-For` first, so
the claimed return value `["X-Real-Ip", "X-Forwarded-For"]` is wrong. -/
theorem genericHeaders_not_consultation_order :
    ¬ (InitializeGenericProvider [] []).headers = ["X-Real-Ip", "X-Forwarded-For"] := by
  decide

/-- C10 amended: the generic provider's `Headers()` returns
`[X-Forwarded-For, X-Real-Ip]` — the declaration order, which is not the
consultation order: resolution consults `X-Real-Ip` first, returning its
trimmed value whenever that value is non-excluded. -/
theorem genericHeaders_declaration_order (nets : List IPNet) (addrs : List Nat)
    (req : StrMap)
    (h : isExcludedIP nets addrs (trimSpace (headerGet req xRealIPHeader)) = false) :
    (InitializeGenericProvider nets addrs).headers = [xForwardedForHeader, xRealIPHeader] ∧
    (genericGetRealIP (InitializeGenericProvider nets addrs) req).2 =
      trimSpace (headerGet req xRealIPHeader) := by
  have hne : headerGet req xRealIPHeader ≠ "" := by
    intro he
    rw [he] at h
    rw [show trimSpace "" = "" from rfl, isExcludedIP_empty] at h
    exact Bool.true_eq_false.mp h
  refine ⟨rfl, ?_⟩
  rw [genericGetRealIP_snd]
  have hXRI : mapGet? (fillValues (InitializeGenericProvider nets addrs).headers
      (InitializeGenericProvider nets addrs).values req) xRealIPHeader =
      some (trimSpace (headerGet req xRealIPHeader)) := by
    rw [mapGet?_fillValues]
    have hmem : xRealIPHeader ∈ (InitializeGenericProvider nets addrs).headers := by
      simp [InitializeGenericProvider]
    rw [if_pos ⟨hmem, hne⟩]
  exact genericResultOfValues_someXRI hXRI h

/-- Spec-side description of the generic provider's selection (spec §4.2):
`X-Real-Ip` is checked first as a single (trimmed) value and returned when
non-excluded; otherwise `X-Forwarded-For` is split on commas, each token
trimmed, and the first non-excluded token in left-to-right order returned;
the empty string when no candidate passes.  This definition follows the
spec's words, for comparison with the embedded code. -/
def genericResolveSpec (nets : List IPNet) (addrs : List Nat) (req : StrMap) : String :=
  let xri := trimSpace (headerGet req xRealIPHeader)
  if ¬ isExcludedIP nets addrs xri then xri
  else
    let tokens :=
      (splitChars ',' (trimSpace (headerGet req xForwardedForHeader)).data).map
        (fun t => (⟨trimChars t⟩ : String))
    match tokens.find? (fun t => ¬ isExcludedIP nets addrs t) with
    | some t => t
    | none => ""

theorem genericForwardedScan_fresh (nets : List IPNet) (addrs : List Nat) (req : StrMap) :
    genericForwardedScan nets addrs
        (fillValues [xForwardedForHeader, xRealIPHeader] [] req) =
      match ((splitChars ',' (trimSpace (headerGet req xForwardedForHeader)).data).map
          (fun t => (⟨trimChars t⟩ : String))).find?
          (fun t => ¬ isExcludedIP nets addrs t) with
      | some t => t
      | none => "" := by
  by_cases hXFF : headerGet req xForwardedForHeader = ""
  · have hnone : mapGet? (fillValues [xForwardedForHeader, xRealIPHeader] [] req)
        xForwardedForHeader = none := by
      rw [mapGet?_fillValues]
      rw [if_neg (by intro hc; exact hc.2 hXFF)]
      rfl
    rw [genericForwardedScan_none hnone, hXFF]
    rfl
  · have hsome : mapGet? (fillValues [xForwardedForHeader, xRealIPHeader] [] req)
        xForwardedForHeader = some (trimSpace (headerGet req xForwardedForHeader)) := by
      rw [mapGet?_fillValues]
      rw [if_pos ⟨by simp, hXFF⟩]
    rw [genericForwardedScan_some hsome]

/-- C4: starting from a freshly initialized generic provider, `GetRealIP`
computes exactly the spec's selection: `X-Real-Ip` first as a single value,
then the first non-excluded trimmed token of the comma-split
`X-Forwarded-For` chain, else the empty string. -/
theorem genericGetRealIP_eq_spec (nets : List IPNet) (addrs : List Nat) (req : StrMap) :
    (genericGetRealIP (InitializeGenericProvider nets addrs) req).2 =
      genericResolveSpec nets addrs req := by
  rw [genericGetRealIP_snd]
  show genericResultOfValues nets addrs
      (fillValues [xForwardedForHeader, xRealIPHeader] [] req) =
    genericResolveSpec nets addrs req
  by_cases hraw : headerGet req xRealIPHeader = ""
  · have hnone : mapGet? (fillValues [xForwardedForHeader, xRealIPHeader] [] req)
        xRealIPHeader = none := by
      rw [mapGet?_fillValues]
      rw [if_neg (by intro hc; exact hc.2 hraw)]
      rfl
    rw [genericResultOfValues_noXRI hnone, genericForwardedScan_fresh]
    unfold genericResolveSpec
    have hxri : trimSpace (headerGet req xRealIPHeader) = "" := by
      rw [hraw]
      rfl
    rw [hxri]
    rw [if_neg (by simp [isExcludedIP_empty])]
  · have hsome : mapGet? (fillValues [xForwardedForHeader, xRealIPHeader] [] req)
        xRealIPHeader = some (trimSpace (headerGet req xRealIPHeader)) := by
      rw [mapGet?_fillValues]
      rw [if_pos ⟨by simp, hraw⟩]
    by_cases hex : isExcludedIP nets addrs (trimSpace (headerGet req xRealIPHeader)) = false
    · rw [genericResultOfValues_someXRI hsome hex]
      unfold genericResolveSpec
      rw [if_pos (by simp [hex])]
    · simp only [Bool.not_eq_false] at hex
      rw [genericResultOfValues_excludedXRI hsome hex, genericForwardedScan_fresh]
      unfold genericResolveSpec
      rw [if_neg (by simp [hex])]

/-- C10 amended, witness at a concrete request. -/
theorem genericHeaders_declaration_order_witness :
    (InitializeGenericProvider [] []).headers = [xForwardedForHeader, xRealIPHeader] ∧
    (genericGetRealIP (InitializeGenericProvider [] [])
        [(xRealIPHeader, "10.0.0.20")]).2 =
      trimSpace (headerGet [(xRealIPHeader, "10.0.0.20")] xRealIPHeader) :=
  genericHeaders_declaration_order [] [] [(xRealIPHeader, "10.0.0.20")] (by decide)

end TraefikRealIPModel
